import Mathlib

/-!
Verification development for the theano partition compute core of the
micropsi2 repository (src/micropsi_core/nodenet/theano_engine/theano_partition.py).

The partition state is embedded shallowly: the numpy/theano vectors become
functions from element indices to exact rationals (the float arrays are
idealised as rationals), the int vectors become functions into integers or
naturals, and the theano shared-variable updates become pure record updates.
The transcendental sigmoid and tanh used by the LSTM gates and by the
SIGMOID/TANH gate functions are passed as function parameters, since no claim
under study depends on their concrete values.

The capability flags has_pipes, has_lstms and the per gate-function flags of
the source are dispatch pruning only (an element whose selector picks a branch
always has the matching flag set on every state the public API can build), so
the embedding runs the full dispatch unconditionally.  The two activator flags
has_directional_activators and has_sampling_activators are kept in the state
because they gate the g_factor recomputation and the writing of a[0] = 1,
which is observable.
-/

namespace Micropsi

/-- Modelled from the spec (section 6, node-function selector values):
the numeric selector constants come from theano_definitions.py, which is not
among the provided source files.  NONE=0, then the seven Pipe selectors, then
the five LSTM selectors, in the order the spec lists them. -/
def NFPG_PIPE_NON : ℕ := 0

def NFPG_PIPE_GEN : ℕ := 1

def NFPG_PIPE_POR : ℕ := 2

def NFPG_PIPE_RET : ℕ := 3

def NFPG_PIPE_SUB : ℕ := 4

def NFPG_PIPE_SUR : ℕ := 5

def NFPG_PIPE_CAT : ℕ := 6

def NFPG_PIPE_EXP : ℕ := 7

def NFPG_LSTM_GEN : ℕ := 8

def NFPG_LSTM_POR : ℕ := 9

def NFPG_LSTM_GIN : ℕ := 10

def NFPG_LSTM_GOU : ℕ := 11

def NFPG_LSTM_GFG : ℕ := 12

/-- Modelled from the spec (section 6, gate function selector values):
IDENTITY=0, ABSOLUTE, SIGMOID, TANH, RECT, DIST. -/
def GATE_FUNCTION_IDENTITY : ℕ := 0

def GATE_FUNCTION_ABSOLUTE : ℕ := 1

def GATE_FUNCTION_SIGMOID : ℕ := 2

def GATE_FUNCTION_TANH : ℕ := 3

def GATE_FUNCTION_RECT : ℕ := 4

def GATE_FUNCTION_DIST : ℕ := 5

/-- Indicator of a decidable proposition as a rational 0/1 value; this is how
the theano comparison operators (T.gt, T.ge, T.eq, ...) enter arithmetic. -/
def bi (p : Prop) [Decidable p] : ℚ := if p then 1 else 0

/-- The partition state: one record field per numpy array or theano shared
variable of TheanoPartition that the claims under study touch.  Arrays are
total functions; only indices below NoE (resp. NoN, NoNS) are meaningful.
The fields last_allocated_node and last_allocated_nodespace live in the
separate AllocState projection used by the create_node / create_nodespace
claims, and the nodegroups dictionary is passed to the group API functions
as an explicit argument; neither is read by the tick. -/
structure Partition where
  NoN : ℕ
  NoE : ℕ
  NoNS : ℕ
  w : ℕ → ℕ → ℚ
  a : ℕ → ℚ
  a_in : ℕ → ℚ
  a_prev : ℕ → ℚ
  g_theta : ℕ → ℚ
  g_factor : ℕ → ℚ
  g_threshold : ℕ → ℚ
  g_amplification : ℕ → ℚ
  g_min : ℕ → ℚ
  g_max : ℕ → ℚ
  g_expect : ℕ → ℚ
  g_countdown : ℕ → ℤ
  g_wait : ℕ → ℤ
  g_function_selector : ℕ → ℕ
  n_function_selector : ℕ → ℕ
  n_node_porlinked : ℕ → ℕ
  n_node_retlinked : ℕ → ℕ
  allocated_nodes : ℕ → ℕ
  allocated_node_offsets : ℕ → ℕ
  allocated_elements_to_nodes : ℕ → ℕ
  allocated_node_parents : ℕ → ℕ
  allocated_nodespaces : ℕ → ℕ
  allocated_elements_to_activators : ℕ → ℕ
  allocated_nodespaces_por_activators : ℕ → ℕ
  allocated_nodespaces_ret_activators : ℕ → ℕ
  allocated_nodespaces_sub_activators : ℕ → ℕ
  allocated_nodespaces_sur_activators : ℕ → ℕ
  allocated_nodespaces_cat_activators : ℕ → ℕ
  allocated_nodespaces_exp_activators : ℕ → ℕ
  allocated_nodespaces_sampling_activators : ℕ → ℕ
  por_ret_dirty : Bool
  has_directional_activators : Bool
  has_sampling_activators : Bool

/-- Row i of the weight matrix dotted with the activation vector: the i-th
component of W.a in compile_propagate. -/
def dotRow (NoE : ℕ) (w : ℕ → ℕ → ℚ) (a : ℕ → ℚ) (i : ℕ) : ℚ :=
  ∑ j ∈ Finset.range NoE, w i j * a j

/-- compile_propagate: the theano function updates a_prev, a and a_in
simultaneously from the pre-call values:
a_prev gets a, a gets a_in + W.a, a_in gets the zero vector. -/
def propagate (p : Partition) : Partition :=
  { p with
    a_prev := p.a
    a := fun i => p.a_in i + dotRow p.NoE p.w p.a i
    a_in := fun _ => 0 }

/-- The shifted slot view.  __rebuild_shifted rolls the activation vector by 7
and lays a (NoE, 14) window over it, so row i column k holds
a[(i + k - 7) mod NoE].  (The numpy as_strided window additionally reads past
the end of the rolled buffer for i + k >= NoE; the roll-based modulo semantics
is the intended one and is the one the spec states, so the embedding uses the
modulo for all indices.  All theorems that depend on slot values carry bounds
keeping the accesses inside the buffer.) -/
def shifted (NoE : ℕ) (v : ℕ → ℚ) (i k : ℕ) : ℚ :=
  v ((i + k + (NoE - 7)) % NoE)

/-- T.clip(x, lo, hi) = minimum(maximum(x, lo), hi). -/
def tclip (x lo hi : ℚ) : ℚ := min (max x lo) hi

/-! Pipe logic from compile_calculate_nodes.  Each function takes the shifted
slot row of the element being computed (slots k = a_shifted[i, k]); the column
indices are exactly those of the source.  In the rows below, the seven slots
gen por ret sub sur cat exp of the owning node sit at columns 7..13 for the
gen element, 6..12 for por, 5..11 for ret, 4..10 for sub, 3..9 for sur,
2..8 for cat and 1..7 for exp. -/

/-- pipe_gen_sur_exp: sur + exp, dropped to 0 if strictly between 0 and the
expectation. -/
def pipe_gen_sur_exp (slots : ℕ → ℚ) (expect : ℚ) : ℚ :=
  let d := slots 11 + slots 13
  if d < expect ∧ d > 0 then 0 else d

/-- pipe_gen: gen * sub, dropped to the default if its absolute value is at
most 0.1, and dropped to the default if the por slot is 0 while por-linked. -/
def pipe_gen (slots : ℕ → ℚ) (expect : ℚ) (porlinked : ℕ) : ℚ :=
  let d := pipe_gen_sur_exp slots expect
  let g0 := slots 7 * slots 10
  let g1 := if |g0| > 1/10 then g0 else d
  if slots 8 = 0 ∧ porlinked = 1 then d else g1

/-- pipe_por before timeout, conditions and search term: sur plus the
gen-loop indicator with threshold 0.1. -/
def pipe_por_base (slots : ℕ → ℚ) : ℚ :=
  slots 10 + bi (slots 6 > 1/10)

/-- pipe_por: base, then timeout to -1, then the por/sub conditions, then the
search term por * [sub = 0 and sur = 0]. -/
def pipe_por (slots : ℕ → ℚ) (expect : ℚ) (cd : ℤ) (porlinked : ℕ) : ℚ :=
  let cond := (if porlinked = 1 then bi (slots 7 > 0) else 1) * bi (slots 9 > 0)
  let v1 := pipe_por_base slots
  let v2 := if cd ≤ 0 ∧ v1 < expect then -1 else v1
  let v3 := v2 * cond
  v3 + slots 7 * bi (slots 9 = 0) * bi (slots 10 = 0)

/-- countdown_por: reset to wait when sub is gone or por-linked with por at
most 0, otherwise decrement clamped at -1; reset to wait when the final
pipe_por value confirms the expectation. -/
def pipe_por_countdown (slots : ℕ → ℚ) (expect : ℚ) (cd wait : ℤ)
    (porlinked : ℕ) : ℤ :=
  let cdrc := slots 9 ≤ 0 ∨ (porlinked = 1 ∧ slots 7 ≤ 0)
  let cd0 := if cdrc then wait else max (cd - 1) (-1)
  if pipe_por slots expect cd porlinked ≥ expect then wait else cd0

/-- pipe_ret: [por < 0] plus the search term ret * [sub = 0 and sur = 0]. -/
def pipe_ret (slots : ℕ → ℚ) : ℚ :=
  bi (slots 6 < 0) + slots 7 * bi (slots 8 = 0) * bi (slots 9 = 0)

/-- pipe_sub: (sub + cat) under the por condition and [gen = 0]. -/
def pipe_sub (slots : ℕ → ℚ) (porlinked : ℕ) : ℚ :=
  let cond := (if porlinked = 1 then bi (slots 5 > 0) else 1) * bi (slots 4 = 0)
  (slots 7 + slots 9) * cond

/-- pipe_sur before the expectation drop, timeout, ret factor and conditions:
sur plus the gen-loop indicator with threshold 0.2 plus exp * sub. -/
def pipe_sur_base (slots : ℕ → ℚ) : ℚ :=
  slots 7 + bi (slots 3 > 1/5) + slots 9 * slots 6

/-- pipe_sur up to the point where the countdown reset reads it: base, then
drop to 0 strictly between 0 and the expectation, then timeout to -1. -/
def pipe_sur_pre (slots : ℕ → ℚ) (expect : ℚ) (cd : ℤ) : ℚ :=
  let v1 := pipe_sur_base slots
  let v2 := if v1 < expect ∧ v1 > 0 then 0 else v1
  if cd ≤ 0 ∧ v2 < expect then -1 else v2

/-- pipe_sur: the pre value multiplied by ret when ret-linked and by the
por condition. -/
def pipe_sur (slots : ℕ → ℚ) (expect : ℚ) (cd : ℤ)
    (porlinked retlinked : ℕ) : ℚ :=
  let cond := bi (porlinked = 0 ∨ slots 4 > 0)
  let v3 := pipe_sur_pre slots expect cd
  let v4 := v3 * (if retlinked = 1 then slots 5 else 1)
  v4 * cond

/-- countdown_sur: like countdown_por but on the sur frame, and reading the
pipe_sur value before the ret factor and conditions are applied. -/
def pipe_sur_countdown (slots : ℕ → ℚ) (expect : ℚ) (cd wait : ℤ)
    (porlinked : ℕ) : ℤ :=
  let cdrc := slots 6 ≤ 0 ∨ (porlinked = 1 ∧ slots 4 ≤ 0)
  let cd0 := if cdrc then wait else max (cd - 1) (-1)
  if pipe_sur_pre slots expect cd ≥ expect then wait else cd0

/-- pipe_cat: clip(sur, 0, 1) + sub + cat under the por condition and
[gen = 0], plus the search term cat * [sub = 0 and sur = 0]. -/
def pipe_cat (slots : ℕ → ℚ) (porlinked : ℕ) : ℚ :=
  let cond := (if porlinked = 1 then bi (slots 3 > 0) else 1) * bi (slots 2 = 0)
  (tclip (slots 6) 0 1 + slots 5 + slots 7) * cond
    + slots 7 * bi (slots 5 = 0) * bi (slots 6 = 0)

/-- pipe_exp: sur + exp + [gen * sub > 0.2]. -/
def pipe_exp (slots : ℕ → ℚ) : ℚ :=
  slots 5 + slots 7 + bi (slots 1 * slots 4 > 1/5)

/-! LSTM logic from compile_calculate_nodes, parameterised by the sigmoid. -/

/-- lstm gen: next cell state s * sigmoid(net_phi) + tanh_g(net_c) *
sigmoid(net_in) with tanh_g x = 4 * sigmoid x - 2. -/
def lstm_gen (sig : ℚ → ℚ) (slots biases : ℕ → ℚ) : ℚ :=
  slots 7 * sig (slots 11 + biases 11)
    + (4 * sig (slots 8 + biases 8) - 2) * sig (slots 9 + biases 9)

/-- lstm por: output h * sigmoid(net_out) with h = 2 * sigmoid(s) - 1. -/
def lstm_por (sig : ℚ → ℚ) (slots biases : ℕ → ℚ) : ℚ :=
  let s := slots 6 * sig (slots 10 + biases 10)
    + (4 * sig (slots 7 + biases 7) - 2) * sig (slots 8 + biases 8)
  (2 * sig s - 1) * sig (slots 9 + biases 9)

/-- lstm gin, gou, gfg: sigmoid of own slot plus own theta. -/
def lstm_gate (sig : ℚ → ℚ) (slots biases : ℕ → ℚ) : ℚ :=
  sig (slots 7 + biases 7)

/-- The gate function applied to the node-function output x: the switch
cascade over g_function_selector in compile_calculate_nodes.  The selector
values are distinct constants, so the elementwise cascade equals this
first-match chain. -/
def gate_function_output (sig tah : ℚ → ℚ) (sel : ℕ) (θ x : ℚ) : ℚ :=
  if sel = GATE_FUNCTION_ABSOLUTE then |x|
  else if sel = GATE_FUNCTION_SIGMOID then sig (x + θ)
  else if sel = GATE_FUNCTION_TANH then tah (x + θ)
  else if sel = GATE_FUNCTION_RECT then (if x + θ > 0 then x - θ else 0)
  else if sel = GATE_FUNCTION_DIST then (if x ≠ 0 then 1 / x else 0)
  else x

/-- The gate stage for element i: gate function, then threshold
(kept iff at least g_threshold, else 0), then amplification, then
clip to [g_min, g_max]. -/
def gate_stage (sig tah : ℚ → ℚ) (p : Partition) (i : ℕ) (x : ℚ) : ℚ :=
  let y := gate_function_output sig tah (p.g_function_selector i) (p.g_theta i) x
  let thresholded := if y ≥ p.g_threshold i then y else 0
  let amplified := thresholded * p.g_amplification i
  tclip amplified (p.g_min i) (p.g_max i)

/-- The LSTM sampling predicate: the step is a multiple of 3, and when
sampling activators are present the gate factor must exceed 0.99. -/
def lstm_sample (p : Partition) (t : ℤ) (i : ℕ) : Prop :=
  t % 3 = 0 ∧ (p.has_sampling_activators = true → p.g_factor i > 99/100)

instance (p : Partition) (t : ℤ) (i : ℕ) : Decidable (lstm_sample p t i) := by
  unfold lstm_sample; infer_instance

/-- The node-function dispatch for element i: the switch cascade over
n_function_selector in compile_calculate_nodes, elementwise.  The selector
constants are pairwise distinct so the cascade equals this first-match chain.
The slot and bias rows are taken from the shifted views over aShift and
g_theta; aShift is the activation vector at the moment __rebuild_shifted ran
(before the g-factor phase may overwrite a[0]), while identity elements read
the live activation vector of p.  When directional activators are present the
Pipe gates other than gen are multiplied by the gate factor. -/
def node_function (sig tah : ℚ → ℚ) (t : ℤ) (p : Partition) (aShift : ℕ → ℚ)
    (i : ℕ) : ℚ :=
  let slots := fun k => shifted p.NoE aShift i k
  let biases := fun k => shifted p.NoE p.g_theta i k
  let gf := if p.has_directional_activators then p.g_factor i else 1
  let sel := p.n_function_selector i
  let pl := p.n_node_porlinked i
  let rl := p.n_node_retlinked i
  let ex := p.g_expect i
  let cd := p.g_countdown i
  if sel = NFPG_PIPE_GEN then pipe_gen slots ex pl
  else if sel = NFPG_PIPE_POR then pipe_por slots ex cd pl * gf
  else if sel = NFPG_PIPE_RET then pipe_ret slots * gf
  else if sel = NFPG_PIPE_SUB then pipe_sub slots pl * gf
  else if sel = NFPG_PIPE_SUR then pipe_sur slots ex cd pl rl * gf
  else if sel = NFPG_PIPE_CAT then pipe_cat slots pl * gf
  else if sel = NFPG_PIPE_EXP then pipe_exp slots * gf
  else if sel = NFPG_LSTM_GEN then
    (if lstm_sample p t i then lstm_gen sig slots biases else p.a_prev i)
  else if sel = NFPG_LSTM_POR then
    (if lstm_sample p t i then lstm_por sig slots biases else p.a_prev i)
  else if sel = NFPG_LSTM_GIN then
    (if lstm_sample p t i then lstm_gate sig slots biases else p.a_prev i)
  else if sel = NFPG_LSTM_GOU then
    (if lstm_sample p t i then lstm_gate sig slots biases else p.a_prev i)
  else if sel = NFPG_LSTM_GFG then
    (if lstm_sample p t i then lstm_gate sig slots biases else p.a_prev i)
  else p.a i

/-- The new countdown for element i: countdown_por for PIPE_POR elements,
countdown_sur for PIPE_SUR elements, unchanged otherwise. -/
def new_countdown (p : Partition) (aShift : ℕ → ℚ) (i : ℕ) : ℤ :=
  let slots := fun k => shifted p.NoE aShift i k
  let sel := p.n_function_selector i
  if sel = NFPG_PIPE_POR then
    pipe_por_countdown slots (p.g_expect i) (p.g_countdown i) (p.g_wait i)
      (p.n_node_porlinked i)
  else if sel = NFPG_PIPE_SUR then
    pipe_sur_countdown slots (p.g_expect i) (p.g_countdown i) (p.g_wait i)
      (p.n_node_porlinked i)
  else p.g_countdown i

/-- calculate_nodes: one simultaneous theano update writing the gate outputs
into a and the new countdowns into g_countdown.  aShift is the snapshot of a
taken by __rebuild_shifted before the g-factor phase. -/
def calculate_nodes (sig tah : ℚ → ℚ) (t : ℤ) (aShift : ℕ → ℚ)
    (p : Partition) : Partition :=
  { p with
    a := fun i => gate_stage sig tah p i (node_function sig tah t p aShift i)
    g_countdown := fun i => new_countdown p aShift i }

/-- __calculate_g_factors: when directional or sampling activators are
present, write 1 into a[0] of the live activation buffer and gather the gate
factors through allocated_elements_to_activators. -/
def g_factor_phase (p : Partition) : Partition :=
  if p.has_directional_activators || p.has_sampling_activators then
    let a1 := Function.update p.a 0 1
    { p with
      a := a1
      g_factor := fun e => a1 (p.allocated_elements_to_activators e) }
  else p

/-- Whether row r of the weight matrix has a non-zero entry among the first
NoE columns (np.any over the slot row in rebuild_por_linked). -/
def row_nonzero (NoE : ℕ) (w : ℕ → ℕ → ℚ) (r : ℕ) : Bool :=
  (List.range NoE).any fun c => decide (w r c ≠ 0)

/-- The 0/1 linked flag for the por (or ret) row r. -/
def linked_flag (NoE : ℕ) (w : ℕ → ℕ → ℚ) (r : ℕ) : ℕ :=
  if row_nonzero NoE w r then 1 else 0

/-- rebuild_por_linked as a function of the target index j.  The source
zeroes the flag array and then writes the linked flag of every POR element p
at positions p-1, p, ..., p+5 in that order, so the final value at j comes
from the POR element p = j - d for the largest write offset d in -1..5; the
guards d <= j mirror that numpy only reaches non-negative positions here
(POR elements sit at node offset + 1, which is at least 1 on states built by
create_node). -/
def rebuild_por_linked (NoE : ℕ) (w : ℕ → ℕ → ℚ) (nsel : ℕ → ℕ)
    (j : ℕ) : ℕ :=
  if 5 ≤ j ∧ nsel (j - 5) = NFPG_PIPE_POR then linked_flag NoE w (j - 5)
  else if 4 ≤ j ∧ nsel (j - 4) = NFPG_PIPE_POR then linked_flag NoE w (j - 4)
  else if 3 ≤ j ∧ nsel (j - 3) = NFPG_PIPE_POR then linked_flag NoE w (j - 3)
  else if 2 ≤ j ∧ nsel (j - 2) = NFPG_PIPE_POR then linked_flag NoE w (j - 2)
  else if 1 ≤ j ∧ nsel (j - 1) = NFPG_PIPE_POR then linked_flag NoE w (j - 1)
  else if nsel j = NFPG_PIPE_POR then linked_flag NoE w j
  else if nsel (j + 1) = NFPG_PIPE_POR then linked_flag NoE w (j + 1)
  else 0

/-- rebuild_ret_linked: the RET element r writes positions r-2, ..., r+4. -/
def rebuild_ret_linked (NoE : ℕ) (w : ℕ → ℕ → ℚ) (nsel : ℕ → ℕ)
    (j : ℕ) : ℕ :=
  if 4 ≤ j ∧ nsel (j - 4) = NFPG_PIPE_RET then linked_flag NoE w (j - 4)
  else if 3 ≤ j ∧ nsel (j - 3) = NFPG_PIPE_RET then linked_flag NoE w (j - 3)
  else if 2 ≤ j ∧ nsel (j - 2) = NFPG_PIPE_RET then linked_flag NoE w (j - 2)
  else if 1 ≤ j ∧ nsel (j - 1) = NFPG_PIPE_RET then linked_flag NoE w (j - 1)
  else if nsel j = NFPG_PIPE_RET then linked_flag NoE w j
  else if nsel (j + 1) = NFPG_PIPE_RET then linked_flag NoE w (j + 1)
  else if nsel (j + 2) = NFPG_PIPE_RET then linked_flag NoE w (j + 2)
  else 0

/-- The por_ret_dirty check at the start of calculate: rebuild both linked
flag arrays and clear the dirty bit. -/
def rebuild_por_ret_phase (p : Partition) : Partition :=
  if p.por_ret_dirty then
    { p with
      n_node_porlinked := rebuild_por_linked p.NoE p.w p.n_function_selector
      n_node_retlinked := rebuild_ret_linked p.NoE p.w p.n_function_selector
      por_ret_dirty := false }
  else p

/-- The calculate() method of the partition (run after propagate by the
scheduler): rebuild the linked flags if dirty, snapshot the shifted view,
run the g-factor phase, then calculate_nodes.  Native modules are not
modelled (none of the claims involves them). -/
def partition_calculate (sig tah : ℚ → ℚ) (t : ℤ) (p : Partition) :
    Partition :=
  let p1 := rebuild_por_ret_phase p
  let aShift := p1.a
  let p2 := g_factor_phase p1
  calculate_nodes sig tah t aShift p2

/-- Modelled from the spec (section 4.8): one scheduler tick of a partition
with no inter-partition links is local propagation followed by
partition.calculate(); the scheduler itself is not among the provided
source files. -/
def partition_tick (sig tah : ℚ → ℚ) (t : ℤ) (p : Partition) : Partition :=
  partition_calculate sig tah t (propagate p)

/-- N scheduler ticks starting at step t0. -/
def partition_tick_n (sig tah : ℚ → ℚ) (t0 : ℤ) : ℕ → Partition → Partition
  | 0, p => p
  | n + 1, p => partition_tick_n sig tah (t0 + 1) n (partition_tick sig tah t0 p)

/-- The keyed archive np.savez writes in save(): every persisted array that
bears on the numeric behaviour of the partition.  The weight matrix is stored
losslessly (CSR in the file), so it is kept as a function here.  a_in, a_prev,
the linked-flag arrays, the dirty bit and the capability flags are not
persisted, exactly as in the source. -/
structure Archive where
  sizeNoN : ℕ
  sizeNoE : ℕ
  sizeNoNS : ℕ
  w : ℕ → ℕ → ℚ
  a : ℕ → ℚ
  g_theta : ℕ → ℚ
  g_factor : ℕ → ℚ
  g_threshold : ℕ → ℚ
  g_amplification : ℕ → ℚ
  g_min : ℕ → ℚ
  g_max : ℕ → ℚ
  g_function_selector : ℕ → ℕ
  g_expect : ℕ → ℚ
  g_countdown : ℕ → ℤ
  g_wait : ℕ → ℤ
  n_function_selector : ℕ → ℕ
  allocated_nodes : ℕ → ℕ
  allocated_node_offsets : ℕ → ℕ
  allocated_elements_to_nodes : ℕ → ℕ
  allocated_node_parents : ℕ → ℕ
  allocated_nodespaces : ℕ → ℕ
  allocated_elements_to_activators : ℕ → ℕ
  allocated_nodespaces_por_activators : ℕ → ℕ
  allocated_nodespaces_ret_activators : ℕ → ℕ
  allocated_nodespaces_sub_activators : ℕ → ℕ
  allocated_nodespaces_sur_activators : ℕ → ℕ
  allocated_nodespaces_cat_activators : ℕ → ℕ
  allocated_nodespaces_exp_activators : ℕ → ℕ
  allocated_nodespaces_sampling_activators : ℕ → ℕ

/-- save: copy the persisted arrays into the archive. -/
def save (p : Partition) : Archive :=
  { sizeNoN := p.NoN
    sizeNoE := p.NoE
    sizeNoNS := p.NoNS
    w := p.w
    a := p.a
    g_theta := p.g_theta
    g_factor := p.g_factor
    g_threshold := p.g_threshold
    g_amplification := p.g_amplification
    g_min := p.g_min
    g_max := p.g_max
    g_function_selector := p.g_function_selector
    g_expect := p.g_expect
    g_countdown := p.g_countdown
    g_wait := p.g_wait
    n_function_selector := p.n_function_selector
    allocated_nodes := p.allocated_nodes
    allocated_node_offsets := p.allocated_node_offsets
    allocated_elements_to_nodes := p.allocated_elements_to_nodes
    allocated_node_parents := p.allocated_node_parents
    allocated_nodespaces := p.allocated_nodespaces
    allocated_elements_to_activators := p.allocated_elements_to_activators
    allocated_nodespaces_por_activators := p.allocated_nodespaces_por_activators
    allocated_nodespaces_ret_activators := p.allocated_nodespaces_ret_activators
    allocated_nodespaces_sub_activators := p.allocated_nodespaces_sub_activators
    allocated_nodespaces_sur_activators := p.allocated_nodespaces_sur_activators
    allocated_nodespaces_cat_activators := p.allocated_nodespaces_cat_activators
    allocated_nodespaces_exp_activators := p.allocated_nodespaces_exp_activators
    allocated_nodespaces_sampling_activators :=
      p.allocated_nodespaces_sampling_activators }

/-- Sum of the first n values of a natural-valued array (np.sum). -/
def nat_sum (n : ℕ) (v : ℕ → ℕ) : ℕ :=
  ∑ i ∈ Finset.range n, v i

/-- load_data recomputes has_directional_activators as: any of the six
directional nodespace activator arrays has positive sum. -/
def directional_activators_present (ar : Archive) : Bool :=
  decide (0 < nat_sum ar.sizeNoNS ar.allocated_nodespaces_por_activators) ||
  decide (0 < nat_sum ar.sizeNoNS ar.allocated_nodespaces_ret_activators) ||
  decide (0 < nat_sum ar.sizeNoNS ar.allocated_nodespaces_sub_activators) ||
  decide (0 < nat_sum ar.sizeNoNS ar.allocated_nodespaces_sur_activators) ||
  decide (0 < nat_sum ar.sizeNoNS ar.allocated_nodespaces_cat_activators) ||
  decide (0 < nat_sum ar.sizeNoNS ar.allocated_nodespaces_exp_activators)

/-- load_data recomputes has_sampling_activators from the sampling array. -/
def sampling_activators_present (ar : Archive) : Bool :=
  decide (0 < nat_sum ar.sizeNoNS ar.allocated_nodespaces_sampling_activators)

/-- load_data: rebuild a fresh partition from the archive.  a_in and a_prev
are fresh zero vectors, t is taken from the nodenet, por_ret_dirty is set
and immediately discharged by the rebuild of both linked-flag arrays, the
capability flags are recomputed from the loaded content, and the trailing
early setup of load_data runs the g-factor phase when activators are
present. -/
def load_data (ar : Archive) : Partition :=
  let base : Partition :=
    { NoN := ar.sizeNoN
      NoE := ar.sizeNoE
      NoNS := ar.sizeNoNS
      w := ar.w
      a := ar.a
      a_in := fun _ => 0
      a_prev := fun _ => 0
      g_theta := ar.g_theta
      g_factor := ar.g_factor
      g_threshold := ar.g_threshold
      g_amplification := ar.g_amplification
      g_min := ar.g_min
      g_max := ar.g_max
      g_expect := ar.g_expect
      g_countdown := ar.g_countdown
      g_wait := ar.g_wait
      g_function_selector := ar.g_function_selector
      n_function_selector := ar.n_function_selector
      n_node_porlinked :=
        rebuild_por_linked ar.sizeNoE ar.w ar.n_function_selector
      n_node_retlinked :=
        rebuild_ret_linked ar.sizeNoE ar.w ar.n_function_selector
      allocated_nodes := ar.allocated_nodes
      allocated_node_offsets := ar.allocated_node_offsets
      allocated_elements_to_nodes := ar.allocated_elements_to_nodes
      allocated_node_parents := ar.allocated_node_parents
      allocated_nodespaces := ar.allocated_nodespaces
      allocated_elements_to_activators := ar.allocated_elements_to_activators
      allocated_nodespaces_por_activators :=
        ar.allocated_nodespaces_por_activators
      allocated_nodespaces_ret_activators :=
        ar.allocated_nodespaces_ret_activators
      allocated_nodespaces_sub_activators :=
        ar.allocated_nodespaces_sub_activators
      allocated_nodespaces_sur_activators :=
        ar.allocated_nodespaces_sur_activators
      allocated_nodespaces_cat_activators :=
        ar.allocated_nodespaces_cat_activators
      allocated_nodespaces_exp_activators :=
        ar.allocated_nodespaces_exp_activators
      allocated_nodespaces_sampling_activators :=
        ar.allocated_nodespaces_sampling_activators
      por_ret_dirty := false
      has_directional_activators := directional_activators_present ar
      has_sampling_activators := sampling_activators_present ar }
  g_factor_phase base

/-- The arrays the round-trip property I5 compares: a, W, every g_* array
and the countdown. -/
structure Observables where
  a : ℕ → ℚ
  w : ℕ → ℕ → ℚ
  g_theta : ℕ → ℚ
  g_factor : ℕ → ℚ
  g_threshold : ℕ → ℚ
  g_amplification : ℕ → ℚ
  g_min : ℕ → ℚ
  g_max : ℕ → ℚ
  g_expect : ℕ → ℚ
  g_function_selector : ℕ → ℕ
  g_countdown : ℕ → ℤ
  g_wait : ℕ → ℤ

/-- Projection of a partition onto the compared arrays. -/
def observe (p : Partition) : Observables :=
  { a := p.a
    w := p.w
    g_theta := p.g_theta
    g_factor := p.g_factor
    g_threshold := p.g_threshold
    g_amplification := p.g_amplification
    g_min := p.g_min
    g_max := p.g_max
    g_expect := p.g_expect
    g_function_selector := p.g_function_selector
    g_countdown := p.g_countdown
    g_wait := p.g_wait }

/-- Modelled from the spec (section 3, data model): the numeric node type
constants of theano_definitions.py, which is not among the provided source
files.  Only their distinctness and the PIPE and LSTM identities matter to
the claims. -/
def REGISTER : ℕ := 1

def SENSOR : ℕ := 2

def ACTUATOR : ℕ := 3

def ACTIVATOR : ℕ := 4

def CONCEPT : ℕ := 5

def PIPE : ℕ := 6

def LSTM : ℕ := 7

def COMMENT : ℕ := 8

/-- The gate and slot names of the standard node types. -/
inductive GateName where
  | gen | por | ret | sub | sur | cat | exp | gin | gou | gfg
deriving DecidableEq

/-- Modelled from the spec (sections 3 and 4.4): get_numerical_gate_type of
theano_definitions.py for standard node types; gen..exp map to 0..6 and the
LSTM gate names gin, gou, gfg map to their element positions 2, 3, 4. -/
def get_numerical_gate_type : GateName → ℕ
  | .gen => 0
  | .por => 1
  | .ret => 2
  | .sub => 3
  | .sur => 4
  | .cat => 5
  | .exp => 6
  | .gin => 2
  | .gou => 3
  | .gfg => 4

/-- Modelled from the spec: slots pair one-to-one with elements, so the slot
numbering equals the gate numbering for standard types. -/
def get_numerical_slot_type : GateName → ℕ := get_numerical_gate_type

/-- Modelled from the spec (section 3): gates per standard node type;
gates pair one-to-one with the elements listed there (Register 1, Sensor 1,
Actuator 1, Concept 7, Pipe 7, LSTM 5, Activator 1, Comment 0). -/
def get_gates_per_type (t : ℕ) : ℕ :=
  if t = REGISTER then 1
  else if t = SENSOR then 1
  else if t = ACTUATOR then 1
  else if t = ACTIVATOR then 1
  else if t = CONCEPT then 7
  else if t = PIPE then 7
  else if t = LSTM then 5
  else 0

/-- Modelled from the spec: slots per standard node type, equal to the gate
counts. -/
def get_slots_per_type (t : ℕ) : ℕ := get_gates_per_type t

/-- The typed errors of the editing and bulk APIs. -/
inductive ApiError where
  | invalidGate | invalidSlot | invalidGroup | shapeMismatch
deriving DecidableEq

/-- Point update of the weight matrix: w_matrix[x, y] = weight. -/
def matrix_update (w : ℕ → ℕ → ℚ) (x y : ℕ) (v : ℚ) : ℕ → ℕ → ℚ :=
  fun i j => if i = x ∧ j = y then v else w i j

/-- for g in range(7): flags[offset + g] = v. -/
def flags_update7 (f : ℕ → ℕ) (off v : ℕ) : ℕ → ℕ :=
  fun j => if off ≤ j ∧ j < off + 7 then v else f j

/-- set_link_weight: compute the numeric gate and slot types, reject them
when strictly larger than the gate and slot counts of the node types
involved, then write the weight at (target offset + slot, source offset +
gate); for a por or ret slot of a Pipe target, overwrite all seven linked
flags of the target from the single written weight.  The change-tracking
arrays of the source are not modelled. -/
def set_link_weight (p : Partition) (src : ℕ) (gate : GateName) (tgt : ℕ)
    (slot : GateName) (weight : ℚ) : Except ApiError Partition :=
  let ngt := get_numerical_gate_type gate
  let nst := get_numerical_slot_type slot
  if ngt > get_gates_per_type (p.allocated_nodes src) then .error .invalidGate
  else if nst > get_slots_per_type (p.allocated_nodes tgt) then
    .error .invalidSlot
  else
    let x := p.allocated_node_offsets tgt + nst
    let y := p.allocated_node_offsets src + ngt
    let p1 := { p with w := matrix_update p.w x y weight }
    let p2 :=
      if slot = GateName.por ∧ p.allocated_nodes tgt = PIPE then
        { p1 with
          n_node_porlinked := flags_update7 p1.n_node_porlinked
            (p.allocated_node_offsets tgt) (if weight = 0 then 0 else 1) }
      else p1
    let p3 :=
      if slot = GateName.ret ∧ p.allocated_nodes tgt = PIPE then
        { p2 with
          n_node_retlinked := flags_update7 p2.n_node_retlinked
            (p.allocated_node_offsets tgt) (if weight = 0 then 0 else 1) }
      else p2
    .ok p3

/-- The nodegroups dictionary: (nodespace id, group id) keyed lists of
element indices.  The source keys by strings; the embedding keys by numbers,
which is a faithful renaming. -/
def Groups : Type := List ((ℕ × ℕ) × List ℕ)

/-- Dictionary lookup of a group. -/
def lookup_group (groups : Groups) (ns g : ℕ) : Option (List ℕ) :=
  (List.find? (fun e => e.1.1 == ns && e.1.2 == g) groups).map (fun e => e.2)

/-- get_activations: error when the group is missing, else gather a at the
group element indices. -/
def get_activations (groups : Groups) (p : Partition) (ns g : ℕ) :
    Except ApiError (List ℚ) :=
  match lookup_group groups ns g with
  | none => .error .invalidGroup
  | some idxs => .ok (idxs.map p.a)

/-- Sequential fancy assignment arr[idxs] = vals: later positions win, as in
numpy. -/
def assign_at (f : ℕ → ℚ) : List ℕ → List ℚ → (ℕ → ℚ)
  | i :: is, v :: vs => assign_at (Function.update f i v) is vs
  | _, _ => f

/-- set_activations: error when the group is missing; the numpy assignment
then succeeds when the value count equals the group size, silently
broadcasts a single value over the whole group, and raises on any other
length. -/
def set_activations (groups : Groups) (p : Partition) (ns g : ℕ)
    (vals : List ℚ) : Except ApiError Partition :=
  match lookup_group groups ns g with
  | none => .error .invalidGroup
  | some idxs =>
    if vals.length = idxs.length then
      .ok { p with a := assign_at p.a idxs vals }
    else if vals.length = 1 then
      .ok { p with
        a := assign_at p.a idxs (List.replicate idxs.length (vals.headD 0)) }
    else .error .shapeMismatch

/-- get_thetas: error when the group is missing, else gather g_theta. -/
def get_thetas (groups : Groups) (p : Partition) (ns g : ℕ) :
    Except ApiError (List ℚ) :=
  match lookup_group groups ns g with
  | none => .error .invalidGroup
  | some idxs => .ok (idxs.map p.g_theta)

/-- set_thetas: like set_activations on g_theta. -/
def set_thetas (groups : Groups) (p : Partition) (ns g : ℕ)
    (vals : List ℚ) : Except ApiError Partition :=
  match lookup_group groups ns g with
  | none => .error .invalidGroup
  | some idxs =>
    if vals.length = idxs.length then
      .ok { p with g_theta := assign_at p.g_theta idxs vals }
    else if vals.length = 1 then
      .ok { p with
        g_theta :=
          assign_at p.g_theta idxs (List.replicate idxs.length (vals.headD 0)) }
    else .error .shapeMismatch

/-- get_link_weights: error when either group is missing, else the dense
block whose row r, column c entry is w[to-group r, from-group c]. -/
def get_link_weights (groups : Groups) (p : Partition)
    (nsFrom gFrom nsTo gTo : ℕ) : Except ApiError (List (List ℚ)) :=
  match lookup_group groups nsFrom gFrom with
  | none => .error .invalidGroup
  | some fromIdxs =>
    match lookup_group groups nsTo gTo with
    | none => .error .invalidGroup
    | some toIdxs =>
      .ok (toIdxs.map fun r => fromIdxs.map fun c => p.w r c)

/-- The projection of the partition onto the fields create_node and
create_nodespace read and write while selecting an id (source lines
1236-1259 and 1531-1557): the id vectors, their capacities and the reuse
hints. -/
structure AllocState where
  NoN : ℕ
  NoNS : ℕ
  allocated_nodes : ℕ → ℕ
  allocated_nodespaces : ℕ → ℕ
  last_allocated_node : ℕ
  last_allocated_nodespace : ℕ

/-- The python loop `id = 0; for i in range(start, stop): if alloc[i] == 0:
id = i; break`. -/
def find_free_id (alloc : ℕ → ℕ) (start stop : ℕ) : ℕ :=
  ((List.range' start (stop - start)).find? fun i => alloc i == 0).getD 0

/-- grow_number_of_nodes: capacity grows, the id vector keeps its prefix and
is zero beyond the old capacity. -/
def grow_number_of_nodes (s : AllocState) (growby : ℕ) : AllocState :=
  { s with
    NoN := s.NoN + growby
    allocated_nodes := fun i => if i < s.NoN then s.allocated_nodes i else 0 }

/-- grow_number_of_nodespaces, likewise. -/
def grow_number_of_nodespaces (s : AllocState) (growby : ℕ) : AllocState :=
  { s with
    NoNS := s.NoNS + growby
    allocated_nodespaces :=
      fun i => if i < s.NoNS then s.allocated_nodespaces i else 0 }

/-- create_node with an auto-assigned id, restricted to the id selection and
the writes into the id vector and the reuse hint: scan upward from
last_allocated_node + 1; if the result is below 1, scan `range(last - 1)`,
that is 0 .. last - 2; if the result is still below 1, take id = NoN and grow
by NoN / 2.  Finally allocated_nodes[id] = type and last_allocated_node = id.
The element offset allocation of the source
works on different arrays and has no bearing on the id claims. -/
def create_node_auto_id (s : AllocState) (ntype : ℕ) : ℕ × AllocState :=
  let id1 := find_free_id s.allocated_nodes (s.last_allocated_node + 1) s.NoN
  let id2 :=
    if id1 < 1 then find_free_id s.allocated_nodes 0 (s.last_allocated_node - 1)
    else id1
  if id2 < 1 then
    let idg := s.NoN
    let s1 := grow_number_of_nodes s (s.NoN / 2)
    (idg,
      { s1 with
        allocated_nodes := Function.update s1.allocated_nodes idg ntype
        last_allocated_node := idg })
  else
    (id2,
      { s with
        allocated_nodes := Function.update s.allocated_nodes id2 ntype
        last_allocated_node := id2 })

/-- create_nodespace with an auto-assigned id: the same two scans over the
nodespace id vector; on a double miss, id = NoNS and growth by
`NoNS // 2 or 1`.  Finally allocated_nodespaces[id] = parent and
last_allocated_nodespace = id. -/
def create_nodespace_auto_id (s : AllocState) (parent : ℕ) : ℕ × AllocState :=
  let id1 :=
    find_free_id s.allocated_nodespaces (s.last_allocated_nodespace + 1) s.NoNS
  let id2 :=
    if id1 < 1 then
      find_free_id s.allocated_nodespaces 0 (s.last_allocated_nodespace - 1)
    else id1
  if id2 < 1 then
    let idg := s.NoNS
    let growby := if s.NoNS / 2 = 0 then 1 else s.NoNS / 2
    let s1 := grow_number_of_nodespaces s growby
    (idg,
      { s1 with
        allocated_nodespaces := Function.update s1.allocated_nodespaces idg parent
        last_allocated_nodespace := idg })
  else
    (id2,
      { s with
        allocated_nodespaces := Function.update s.allocated_nodespaces id2 parent
        last_allocated_nodespace := id2 })

/-- A two-partition nodenet with one inter-partition link block from Q into
P: the block (from_elements in Q, to_elements in P, weights of shape
(number of to-elements, number of from-elements)) kept by set_inlink_weights. -/
structure NetTwo where
  partP : Partition
  partQ : Partition
  inlink_from : List ℕ
  inlink_to : List ℕ
  inlink_w : ℕ → ℕ → ℚ

/-- The inter-partition contribution into element i of the destination:
get_compiled_propagate_inlinks computes weights . a[from_elements] and adds
it into a_in[to_elements] by inc_subtensor. -/
def inlink_contribution (from_e to_e : List ℕ) (wB : ℕ → ℕ → ℚ)
    (qa : ℕ → ℚ) (i : ℕ) : ℚ :=
  ∑ r ∈ Finset.range to_e.length,
    if to_e.getD r 0 = i then
      ∑ c ∈ Finset.range from_e.length, wB r c * qa (from_e.getD c 0)
    else 0

/-- Modelled from the spec (section 4.8 and ordering guarantee (b)): one
scheduler tick of the two-partition net.  Step 2 propagates every partition;
step 3 adds the inter-partition contribution into the destination a_in,
reading the source activations produced by the propagation of this tick;
step 4 runs calculate() on every partition.  The scheduler itself is not
among the provided source files. -/
def net_tick (sig tah : ℚ → ℚ) (t : ℤ) (n : NetTwo) : NetTwo :=
  let p1 := propagate n.partP
  let q1 := propagate n.partQ
  let p2 :=
    { p1 with
      a_in := fun i =>
        p1.a_in i + inlink_contribution n.inlink_from n.inlink_to n.inlink_w
          q1.a i }
  { n with
    partP := partition_calculate sig tah t p2
    partQ := partition_calculate sig tah t q1 }

/-- The freshly constructed partition of TheanoPartition.__init__: zero
weights and activations, unit gate factor, amplification, maximum, wait and
expectation, zero thresholds, minima, thetas, selectors and linked flags,
por_ret_dirty set, no activators. -/
def init_partition (non noe nons : ℕ) : Partition :=
  { NoN := non
    NoE := noe
    NoNS := nons
    w := fun _ _ => 0
    a := fun _ => 0
    a_in := fun _ => 0
    a_prev := fun _ => 0
    g_theta := fun _ => 0
    g_factor := fun _ => 1
    g_threshold := fun _ => 0
    g_amplification := fun _ => 1
    g_min := fun _ => 0
    g_max := fun _ => 1
    g_expect := fun _ => 1
    g_countdown := fun _ => 0
    g_wait := fun _ => 1
    g_function_selector := fun _ => 0
    n_function_selector := fun _ => 0
    n_node_porlinked := fun _ => 0
    n_node_retlinked := fun _ => 0
    allocated_nodes := fun _ => 0
    allocated_node_offsets := fun _ => 0
    allocated_elements_to_nodes := fun _ => 0
    allocated_node_parents := fun _ => 0
    allocated_nodespaces := fun _ => 0
    allocated_elements_to_activators := fun _ => 0
    allocated_nodespaces_por_activators := fun _ => 0
    allocated_nodespaces_ret_activators := fun _ => 0
    allocated_nodespaces_sub_activators := fun _ => 0
    allocated_nodespaces_sur_activators := fun _ => 0
    allocated_nodespaces_cat_activators := fun _ => 0
    allocated_nodespaces_exp_activators := fun _ => 0
    allocated_nodespaces_sampling_activators := fun _ => 0
    por_ret_dirty := true
    has_directional_activators := false
    has_sampling_activators := false }

/-- Concrete partition for the C8 witness: every selector is RECT. -/
def c8part : Partition :=
  { init_partition 4 8 2 with
    g_function_selector := fun _ => GATE_FUNCTION_RECT
    g_theta := fun _ => 1 }

/-- Concrete activation vector for the C7 witness. -/
def c7a : ℕ → ℚ :=
  fun i => ([0, 3/10, 0, 1/2, 2, 1/4, 3, 5] : List ℚ).getD i 0

/-- A reachable allocation state for C9: ids 2 and 3 in use, id 1 free,
last_allocated_node = 3 (for instance create 1, create 2, delete 1, create
with explicit id 3).  The upper scan range is empty and the free id 1 lies
inside the lower scan range 0 .. last - 2 = 0 .. 1. -/
def c9s : AllocState :=
  { NoN := 4
    NoNS := 2
    allocated_nodes := fun i => ([0, 0, 1, 1] : List ℕ).getD i 0
    allocated_nodespaces := fun _ => 0
    last_allocated_node := 3
    last_allocated_nodespace := 1 }

/-- A small allocation state for the C10 witness. -/
def c10s : AllocState :=
  { NoN := 3
    NoNS := 2
    allocated_nodes := fun i => ([0, 1] : List ℕ).getD i 0
    allocated_nodespaces := fun i => ([0, 1] : List ℕ).getD i 0
    last_allocated_node := 1
    last_allocated_nodespace := 1 }

/-- A reachable partition state for C3: registers n1 (element 1) and n2
(element 2) and a Pipe n3 occupying elements 3..9 (gen 3, por 4, ..., exp 9).
Both registers link into the por slot of the Pipe (w[4,1] = w[4,2] = 1), the
seven por-linked flags of the Pipe are 1, and por_ret_dirty is clear, as
after the two set_link_weight calls. -/
def c3s : Partition :=
  { init_partition 4 16 2 with
    w := fun i j =>
      if i = 4 ∧ j = 1 then 1 else if i = 4 ∧ j = 2 then 1 else 0
    n_function_selector :=
      fun i => ([0, 0, 0, 1, 2, 3, 4, 5, 6, 7] : List ℕ).getD i 0
    n_node_porlinked := fun j => if 3 ≤ j ∧ j < 10 then 1 else 0
    allocated_nodes := fun i => ([0, 1, 1, 6] : List ℕ).getD i 0
    allocated_node_offsets := fun i => ([0, 1, 2, 3] : List ℕ).getD i 0
    por_ret_dirty := false }

/-- A partition with two registers for C4: n1 at element 1, n2 at element 2. -/
def c4s : Partition :=
  { init_partition 4 4 2 with
    allocated_nodes := fun i => ([0, 1, 1] : List ℕ).getD i 0
    allocated_node_offsets := fun i => ([0, 1, 2] : List ℕ).getD i 0 }

/-- One group of two elements for C4. -/
def c4groups : Groups := [((1, 1), [1, 2])]

/-- C5 scenario, as claimed: partitions P and Q with one register each at
element 1, an inter-partition link with weight 2.0 from rQ gen to the rP gen
slot, and a[rQ] set to 0.25. -/
def c5net : NetTwo :=
  { partP := init_partition 2 2 2
    partQ := { init_partition 2 2 2 with a := fun i => if i = 1 then 1/4 else 0 }
    inlink_from := [1]
    inlink_to := [1]
    inlink_w := fun _ _ => 2 }

/-- C5 scenario with the external input written into the dedicated input
vector a_in of Q instead of a. -/
def c5netb : NetTwo :=
  { partP := init_partition 2 2 2
    partQ :=
      { init_partition 2 2 2 with a_in := fun i => if i = 1 then 1/4 else 0 }
    inlink_from := [1]
    inlink_to := [1]
    inlink_w := fun _ _ => 2 }

/-- A reachable partition state for the C2 counterexample: the c3s layout
after the zero write on the n1 -> por link: the por slot row of the Pipe
still holds the weight 1 from n2, but all por-linked flags are 0 and
por_ret_dirty is clear.  Self-loops keep the sub and sur slot elements at
activation 1 across the propagation. -/
def c2orig : Partition :=
  { init_partition 4 16 2 with
    w := fun i j =>
      if i = 4 ∧ j = 2 then 1
      else if i = 6 ∧ j = 6 then 1
      else if i = 7 ∧ j = 7 then 1
      else 0
    a := fun i => if i = 6 ∨ i = 7 then 1 else 0
    n_function_selector :=
      fun i => ([0, 0, 0, 1, 2, 3, 4, 5, 6, 7] : List ℕ).getD i 0
    allocated_nodes := fun i => ([0, 1, 1, 6] : List ℕ).getD i 0
    allocated_node_offsets := fun i => ([0, 1, 2, 3] : List ℕ).getD i 0
    n_node_porlinked := fun _ => 0
    por_ret_dirty := false }

/-- A partition satisfying the consistency hypotheses of the amended round
trip statement by construction. -/
def c2w : Partition :=
  { init_partition 4 8 2 with
    n_node_porlinked := rebuild_por_linked 8 (fun _ _ => 0) (fun _ => 0)
    n_node_retlinked := rebuild_ret_linked 8 (fun _ _ => 0) (fun _ => 0)
    por_ret_dirty := false }

/-- C1: one call of propagate performs exactly the update a_prev := a,
a := a_in + W.a (with the old a), a_in := 0, and changes nothing else;
in particular a_in is the zero vector immediately afterwards. -/
theorem c1_propagate_contract (p : Partition) :
    (propagate p).a_prev = p.a ∧
    (propagate p).a = (fun i => p.a_in i + dotRow p.NoE p.w p.a i) ∧
    (propagate p).a_in = (fun _ => 0) ∧
    ({ propagate p with
        a_prev := p.a_prev
        a := p.a
        a_in := p.a_in } : Partition) = p := by
  refine ⟨rfl, rfl, rfl, ?_⟩
  cases p
  rfl

/-- C6: for every element the gate transfer stage applies, in this order,
the selected transfer function, then thresholding (the value is kept iff it
is at least the threshold, else 0), then multiplication by the
amplification, then the clip to [min, max]; so the activation written by
calculate_nodes is exactly this composition on the node-function output. -/
theorem c6_gate_transfer_order (sig tah : ℚ → ℚ) (t : ℤ) (aShift : ℕ → ℚ)
    (p : Partition) (i : ℕ) :
    (calculate_nodes sig tah t aShift p).a i =
      min
        (max
          ((if gate_function_output sig tah (p.g_function_selector i)
                (p.g_theta i) (node_function sig tah t p aShift i) ≥
                p.g_threshold i then
              gate_function_output sig tah (p.g_function_selector i)
                (p.g_theta i) (node_function sig tah t p aShift i)
            else 0) * p.g_amplification i)
          (p.g_min i))
        (p.g_max i) := rfl

unseal Rat.add Rat.mul Rat.sub Rat.inv in
/-- C8, counterexample: the claim states that for a RECT element the value
entering the threshold step is x + theta when x + theta is positive; at
x = 0 and theta = 1 that would be 1, but the source computes
gate_function_output - g_theta on the positive branch, giving -1. -/
theorem c8_rect_counterexample :
    gate_function_output id id GATE_FUNCTION_RECT 1 0 = -1 ∧
    ¬ gate_function_output id id GATE_FUNCTION_RECT 1 0 = (0 : ℚ) + 1 := by
  decide

/-- C8, amended: for every element whose gate-function selector is RECT, the
value entering the threshold step equals x - theta when x + theta is
positive, and 0 otherwise (the positivity test uses x + theta but the kept
value subtracts theta). -/
theorem c8_rect_amended (sig tah : ℚ → ℚ) (p : Partition) (i : ℕ) (x : ℚ)
    (h : p.g_function_selector i = GATE_FUNCTION_RECT) :
    gate_function_output sig tah (p.g_function_selector i) (p.g_theta i) x =
      if x + p.g_theta i > 0 then x - p.g_theta i else 0 := by
  rw [h]
  rfl

/-- C8 witness: the amended statement applied at a concrete RECT element. -/
theorem c8_rect_amended_witness :
    gate_function_output id id (c8part.g_function_selector 0) (c8part.g_theta 0)
      5 = if (5 : ℚ) + c8part.g_theta 0 > 0 then 5 - c8part.g_theta 0 else 0 :=
  c8_rect_amended id id c8part 0 5 rfl

/-- Moving the shifted-view window back to plain indices when the access
stays inside the rolled buffer. -/
theorem shifted_eq_of_bounds (NoE : ℕ) (v : ℕ → ℚ) (i k : ℕ) (h7 : 7 ≤ NoE)
    (hk : 7 ≤ i + k) (hb : i + k - 7 < NoE) :
    shifted NoE v i k = v (i + k - 7) := by
  unfold shifted
  have h1 : i + k + (NoE - 7) = (i + k - 7) + NoE := by omega
  rw [h1, Nat.add_mod_right, Nat.mod_eq_of_lt hb]

/-- C7: for a Pipe node at element offset o, the por element sits at o + 1
and its base value is sur + [gen > 0.1], while the sur element sits at o + 4
and its base value is sur + [gen > 0.2] + exp * sub, both read through the
shifted slot view; the gen-loop indicator threshold is 0.1 in the por rule
and 0.2 in the sur rule. -/
theorem c7_pipe_gen_loop_thresholds (a : ℕ → ℚ) (NoE o : ℕ) (h7 : 7 ≤ NoE)
    (hb : o + 6 < NoE) :
    pipe_por_base (fun k => shifted NoE a (o + 1) k) =
      a (o + 4) + bi (a o > 1/10) ∧
    pipe_sur_base (fun k => shifted NoE a (o + 4) k) =
      a (o + 4) + bi (a o > 1/5) + a (o + 6) * a (o + 3) := by
  constructor
  · unfold pipe_por_base
    dsimp only
    rw [shifted_eq_of_bounds NoE a (o + 1) 10 h7 (by omega) (by omega),
      shifted_eq_of_bounds NoE a (o + 1) 6 h7 (by omega) (by omega),
      show o + 1 + 10 - 7 = o + 4 from by omega,
      show o + 1 + 6 - 7 = o from by omega]
  · unfold pipe_sur_base
    dsimp only
    rw [shifted_eq_of_bounds NoE a (o + 4) 7 h7 (by omega) (by omega),
      shifted_eq_of_bounds NoE a (o + 4) 3 h7 (by omega) (by omega),
      shifted_eq_of_bounds NoE a (o + 4) 9 h7 (by omega) (by omega),
      shifted_eq_of_bounds NoE a (o + 4) 6 h7 (by omega) (by omega),
      show o + 4 + 7 - 7 = o + 4 from by omega,
      show o + 4 + 3 - 7 = o from by omega,
      show o + 4 + 9 - 7 = o + 6 from by omega,
      show o + 4 + 6 - 7 = o + 3 from by omega]

/-- C7 witness: the theorem applied at NoE = 8 and offset o = 1, with the
bounds discharged by computation. -/
theorem c7_pipe_gen_loop_thresholds_witness :
    pipe_por_base (fun k => shifted 8 c7a (1 + 1) k) =
      c7a (1 + 4) + bi (c7a 1 > 1/10) ∧
    pipe_sur_base (fun k => shifted 8 c7a (1 + 4) k) =
      c7a (1 + 4) + bi (c7a 1 > 1/5) + c7a (1 + 6) * c7a (1 + 3) :=
  c7_pipe_gen_loop_thresholds c7a 8 1 (by decide) (by decide)

/-- C9: evaluation of create_node at the failing input.  Id 1 is free and
lies inside the lower scan range (1 < last_allocated_node - 1), yet the
lower scan hits the never-allocated sentinel slot 0 first, returns id 0,
and the `id < 1` guard treats that as a miss: the partition grows from
NoN = 4 to 6 and allocates id 4 instead of reusing id 1. -/
theorem c9_lower_scan_never_reuses :
    c9s.allocated_nodes 1 = 0 ∧
    1 < c9s.last_allocated_node - 1 ∧
    (create_node_auto_id c9s REGISTER).1 = 4 ∧
    (create_node_auto_id c9s REGISTER).2.NoN = 6 ∧
    (create_node_auto_id c9s REGISTER).2.allocated_nodes 1 = 0 := by
  decide

/-- C10: create_node and create_nodespace with auto-assigned ids always
return an id of at least 1 and never write the sentinel index 0 of the id
vectors, so allocated_nodes[0] and allocated_nodespaces[0] keep their
values (0 on every state the auto-allocating API builds). -/
theorem c10_sentinel_zero (s : AllocState) (nt parent : ℕ)
    (hN : 1 ≤ s.NoN) (hS : 1 ≤ s.NoNS) :
    1 ≤ (create_node_auto_id s nt).1 ∧
    (create_node_auto_id s nt).2.allocated_nodes 0 = s.allocated_nodes 0 ∧
    1 ≤ (create_nodespace_auto_id s parent).1 ∧
    (create_nodespace_auto_id s parent).2.allocated_nodespaces 0 =
      s.allocated_nodespaces 0 := by
  have hup : ∀ (f : ℕ → ℕ) (m v : ℕ), 1 ≤ m → Function.update f m v 0 = f 0 :=
    fun f m v hm => Function.update_noteq (by omega) v f
  unfold create_node_auto_id create_nodespace_auto_id
  dsimp only
  refine ⟨?_, ?_, ?_, ?_⟩
  · split
    · split
      · exact hN
      · dsimp only
        omega
    · dsimp only
      omega
  · split
    · split
      · dsimp only [grow_number_of_nodes]
        rw [hup _ _ _ hN]
        exact if_pos hN
      · dsimp only
        rw [hup _ _ _ (by omega)]
    · dsimp only
      rw [hup _ _ _ (by omega)]
  · split
    · split
      · exact hS
      · dsimp only
        omega
    · dsimp only
      omega
  · split
    · split
      · dsimp only [grow_number_of_nodespaces]
        rw [hup _ _ _ hS]
        exact if_pos hS
      · dsimp only
        rw [hup _ _ _ (by omega)]
    · dsimp only
      rw [hup _ _ _ (by omega)]

/-- C10 witness: the sentinel statement applied at a concrete state. -/
theorem c10_sentinel_zero_witness :
    1 ≤ (create_node_auto_id c10s REGISTER).1 ∧
    (create_node_auto_id c10s REGISTER).2.allocated_nodes 0 =
      c10s.allocated_nodes 0 ∧
    1 ≤ (create_nodespace_auto_id c10s 1).1 ∧
    (create_nodespace_auto_id c10s 1).2.allocated_nodespaces 0 =
      c10s.allocated_nodespaces 0 :=
  c10_sentinel_zero c10s REGISTER 1 (by decide) (by decide)

/-- C3, counterexample: setting the n1 -> por link weight to 0 through
set_link_weight clears all seven por-linked flags of the Pipe although the
por slot row of W still holds the non-zero weight from n2, so the invariant
`por_linked = any(W[por_slot, :] non-zero)` fails on a reachable state. -/
theorem c3_por_linked_counterexample :
    (set_link_weight c3s 1 GateName.gen 3 GateName.por 0).toOption.isSome =
      true ∧
    ((set_link_weight c3s 1 GateName.gen 3
        GateName.por 0).toOption.getD c3s).n_node_porlinked 4 = 0 ∧
    row_nonzero 16
      ((set_link_weight c3s 1 GateName.gen 3
        GateName.por 0).toOption.getD c3s).w 4 = true := by
  decide

/-- C3, amended: the seven flags always move together (every write sets all
seven identically), and whenever rebuild_por_linked runs (at every tick with
por_ret_dirty set, and at load) the flags of a Pipe whose por element sits
at o + 1, isolated from any other por element by the disjointness of node
element ranges, all equal 1 iff the por slot row of W has a non-zero entry;
but a single set_link_weight on the por slot overwrites them from that one
weight alone, so a zero write clears them even while the row keeps another
non-zero entry. -/
theorem c3_por_linked_amended (NoE : ℕ) (w : ℕ → ℕ → ℚ) (nsel : ℕ → ℕ)
    (o k : ℕ) (hsel : nsel (o + 1) = NFPG_PIPE_POR)
    (hiso : ∀ m, nsel m = NFPG_PIPE_POR → o ≤ m + 6 → m ≤ o + 7 → m = o + 1)
    (hk : k ≤ 6) :
    rebuild_por_linked NoE w nsel (o + k) =
      if row_nonzero NoE w (o + 1) then 1 else 0 := by
  show rebuild_por_linked NoE w nsel (o + k) = linked_flag NoE w (o + 1)
  unfold rebuild_por_linked
  split_ifs with h1 h2 h3 h4 h5 h6 h7
  · rw [hiso (o + k - 5) h1.2 (by omega) (by omega)]
  · rw [hiso (o + k - 4) h2.2 (by omega) (by omega)]
  · rw [hiso (o + k - 3) h3.2 (by omega) (by omega)]
  · rw [hiso (o + k - 2) h4.2 (by omega) (by omega)]
  · rw [hiso (o + k - 1) h5.2 (by omega) (by omega)]
  · rw [hiso (o + k) h6 (by omega) (by omega)]
  · rw [hiso (o + k + 1) h7 (by omega) (by omega)]
  · exfalso
    interval_cases k
    · exact h7 (by simpa using hsel)
    · exact h6 (by simpa using hsel)
    · exact h5 ⟨by omega, by rw [show o + 2 - 1 = o + 1 from by omega]; exact hsel⟩
    · exact h4 ⟨by omega, by rw [show o + 3 - 2 = o + 1 from by omega]; exact hsel⟩
    · exact h3 ⟨by omega, by rw [show o + 4 - 3 = o + 1 from by omega]; exact hsel⟩
    · exact h2 ⟨by omega, by rw [show o + 5 - 4 = o + 1 from by omega]; exact hsel⟩
    · exact h1 ⟨by omega, by rw [show o + 6 - 5 = o + 1 from by omega]; exact hsel⟩

/-- C3 witness: the rebuilt flags on the c3s layout (with the zeroed n1
link) at the gen element of the Pipe. -/
theorem c3_por_linked_amended_witness :
    rebuild_por_linked 16 (fun i j => if i = 4 ∧ j = 2 then 1 else 0)
      (fun i => ([0, 0, 0, 1, 2, 3, 4, 5, 6, 7] : List ℕ).getD i 0) (3 + 0) =
      if row_nonzero 16 (fun i j => if i = 4 ∧ j = 2 then 1 else 0) (3 + 1)
      then 1 else 0 :=
  c3_por_linked_amended 16 (fun i j => if i = 4 ∧ j = 2 then 1 else 0)
    (fun i => ([0, 0, 0, 1, 2, 3, 4, 5, 6, 7] : List ℕ).getD i 0) 3 0
    (by decide)
    (by
      intro m hm hlo hhi
      interval_cases m <;> revert hm <;> decide)
    (by decide)

unseal Rat.add Rat.mul Rat.sub Rat.inv in
/-- C4, counterexample: a por gate on a Register (which has only the gen
gate) passes the `>` check because its numeric index 1 is not strictly
greater than the gate count 1, so set_link_weight succeeds and mutates the
weight matrix instead of raising; and set_activations with a single value
for a two-element group silently broadcasts instead of raising a shape
error. -/
theorem c4_invalid_args_counterexample :
    (set_link_weight c4s 1 GateName.por 2 GateName.gen 1).toOption.isSome =
      true ∧
    ((set_link_weight c4s 1 GateName.por 2 GateName.gen 1).toOption.getD
      c4s).w 2 2 = 1 ∧
    c4s.w 2 2 = 0 ∧
    (set_activations c4groups c4s 1 1 [1/2]).toOption.isSome = true ∧
    ((set_activations c4groups c4s 1 1 [1/2]).toOption.getD c4s).a 1 = 1/2 ∧
    ((set_activations c4groups c4s 1 1 [1/2]).toOption.getD c4s).a 2 = 1/2 ∧
    c4s.a 1 = 0 := by
  decide

/-- C4, amended: set_link_weight raises a typed error and produces no new
state when the numeric gate type is strictly greater than the gate count of
the source node type, and likewise for the slot side; the group APIs
get_activations, set_activations, get_thetas, set_thetas and
get_link_weights raise a typed error when the group does not exist; and
set_activations raises a typed error when the value count neither matches
the group size nor is the broadcastable single value. -/
theorem c4_invalid_args_amended :
    (∀ (p : Partition) (src tgt : ℕ) (gate slot : GateName) (wt : ℚ),
      get_numerical_gate_type gate > get_gates_per_type (p.allocated_nodes src) →
      set_link_weight p src gate tgt slot wt =
        Except.error ApiError.invalidGate) ∧
    (∀ (p : Partition) (src tgt : ℕ) (gate slot : GateName) (wt : ℚ),
      ¬ get_numerical_gate_type gate >
          get_gates_per_type (p.allocated_nodes src) →
      get_numerical_slot_type slot > get_slots_per_type (p.allocated_nodes tgt) →
      set_link_weight p src gate tgt slot wt =
        Except.error ApiError.invalidSlot) ∧
    (∀ (groups : Groups) (p : Partition) (ns g : ℕ) (vals : List ℚ),
      lookup_group groups ns g = none →
      get_activations groups p ns g = Except.error ApiError.invalidGroup ∧
      set_activations groups p ns g vals = Except.error ApiError.invalidGroup ∧
      get_thetas groups p ns g = Except.error ApiError.invalidGroup ∧
      set_thetas groups p ns g vals = Except.error ApiError.invalidGroup ∧
      get_link_weights groups p ns g ns g =
        Except.error ApiError.invalidGroup) ∧
    (∀ (groups : Groups) (p : Partition) (ns g : ℕ) (idxs : List ℕ)
        (vals : List ℚ),
      lookup_group groups ns g = some idxs →
      vals.length ≠ idxs.length → vals.length ≠ 1 →
      set_activations groups p ns g vals =
        Except.error ApiError.shapeMismatch) := by
  refine ⟨?_, ?_, ?_, ?_⟩
  · intro p src tgt gate slot wt h
    unfold set_link_weight
    rw [if_pos h]
  · intro p src tgt gate slot wt h1 h2
    unfold set_link_weight
    rw [if_neg h1, if_pos h2]
  · intro groups p ns g vals h
    refine ⟨?_, ?_, ?_, ?_, ?_⟩ <;>
      simp [get_activations, set_activations, get_thetas, set_thetas,
        get_link_weights, h]
  · intro groups p ns g idxs vals h hl h1
    simp [set_activations, h, hl, h1]

/-- C4 witness: the amended statement applied at a concrete out-of-range
gate, a missing group and a non-broadcastable shape. -/
theorem c4_invalid_args_amended_witness :
    set_link_weight c4s 1 GateName.exp 2 GateName.gen 1 =
      Except.error ApiError.invalidGate ∧
    get_activations [] c4s 1 1 = Except.error ApiError.invalidGroup ∧
    set_activations c4groups c4s 1 1 [1, 2, 3] =
      Except.error ApiError.shapeMismatch :=
  ⟨c4_invalid_args_amended.1 c4s 1 2 GateName.exp GateName.gen 1 (by decide),
   (c4_invalid_args_amended.2.2.1 [] c4s 1 1 [] (by decide)).1,
   c4_invalid_args_amended.2.2.2 c4groups c4s 1 1 [1, 2] [1, 2, 3] (by decide)
     (by decide) (by decide)⟩

unseal Rat.add Rat.mul Rat.sub Rat.inv in
/-- C5, counterexample: under the claimed scheduler ordering (propagate,
then cross contributions built from the propagated activations, then the
non-linear update), the propagation of Q overwrites a[rQ] with
a_in + W.a = 0 before the contribution is built, so after one scheduler
tick a[rP] is 0, not 0.5. -/
theorem c5_cross_partition_counterexample :
    (net_tick id id 0 c5net).partP.a 1 = 0 ∧
    ¬ (net_tick id id 0 c5net).partP.a 1 = 1/2 := by
  decide

unseal Rat.add Rat.mul Rat.sub Rat.inv in
/-- C5, amended: with the external input 0.25 written into the dedicated
input vector a_in[rQ], the propagation of tick 1 moves it into a[rQ], the
cross contribution of tick 1 deposits 2.0 * 0.25 = 0.5 into P.a_in, and the
propagation of tick 2 delivers it, so a[rP] = 0.5 after two scheduler ticks
(and still 0 after one). -/
theorem c5_cross_partition_amended :
    (net_tick id id 1 (net_tick id id 0 c5netb)).partP.a 1 = 1/2 ∧
    (net_tick id id 0 c5netb).partP.a 1 = 0 := by
  decide

/-- When the activator bookkeeping is already consistent (a[0] = 1 and
g_factor gathered from a through the activator map), the g-factor phase is
the identity. -/
theorem g_factor_phase_eq_self (q : Partition)
    (h : (q.has_directional_activators || q.has_sampling_activators) = true →
      q.a 0 = 1 ∧
      q.g_factor = fun e => q.a (q.allocated_elements_to_activators e)) :
    g_factor_phase q = q := by
  unfold g_factor_phase
  split
  · next ht =>
    obtain ⟨h0, hg⟩ := h ht
    have hupd : Function.update q.a 0 1 = q.a := by
      rw [← h0]
      exact Function.update_eq_self 0 q.a
    dsimp only
    rw [hupd, ← hg]
  · rfl

/-- Loading the archive written by save rebuilds the partition exactly,
except that a_prev is a fresh zero vector and por_ret_dirty is clear,
provided the saved partition had consistent linked flags, an empty a_in,
capability flags matching its activator arrays, and consistent activator
bookkeeping. -/
theorem load_data_save_eq (p : Partition)
    (hpl : p.n_node_porlinked =
      rebuild_por_linked p.NoE p.w p.n_function_selector)
    (hrl : p.n_node_retlinked =
      rebuild_ret_linked p.NoE p.w p.n_function_selector)
    (hin : p.a_in = fun _ => 0)
    (hda : p.has_directional_activators =
      directional_activators_present (save p))
    (hsa : p.has_sampling_activators = sampling_activators_present (save p))
    (hgf : (p.has_directional_activators || p.has_sampling_activators) = true →
      p.a 0 = 1 ∧
      p.g_factor = fun e => p.a (p.allocated_elements_to_activators e)) :
    load_data (save p) =
      { p with a_prev := fun _ => 0, por_ret_dirty := false } := by
  unfold load_data
  dsimp only
  refine Eq.trans (congrArg g_factor_phase ?_) (g_factor_phase_eq_self _ ?_)
  · congr 1 <;>
      first
        | rfl
        | exact hin.symm
        | exact hpl.symm
        | exact hrl.symm
        | exact hda.symm
        | exact hsa.symm
  · exact hgf

/-- When the linked flags already agree with the rebuild, the por_ret_dirty
check of calculate() only clears the dirty bit. -/
theorem rebuild_phase_eq (q : Partition)
    (h1 : q.n_node_porlinked =
      rebuild_por_linked q.NoE q.w q.n_function_selector)
    (h2 : q.n_node_retlinked =
      rebuild_ret_linked q.NoE q.w q.n_function_selector) :
    rebuild_por_ret_phase q = { q with por_ret_dirty := false } := by
  unfold rebuild_por_ret_phase
  split
  · rw [← h1, ← h2]
  · next hb =>
    simp only [Bool.not_eq_true] at hb
    rw [← hb]

/-- A tick does not depend on the incoming a_prev (the propagation
overwrites it first) nor on the dirty bit when the linked flags agree with
the rebuild. -/
theorem partition_tick_reset (sig tah : ℚ → ℚ) (t : ℤ) (p : Partition)
    (x : ℕ → ℚ) (b : Bool)
    (hpl : p.n_node_porlinked =
      rebuild_por_linked p.NoE p.w p.n_function_selector)
    (hrl : p.n_node_retlinked =
      rebuild_ret_linked p.NoE p.w p.n_function_selector) :
    partition_tick sig tah t { p with a_prev := x, por_ret_dirty := b } =
      partition_tick sig tah t p := by
  unfold partition_tick partition_calculate
  have e1 : propagate { p with a_prev := x, por_ret_dirty := b } =
      { propagate p with por_ret_dirty := b } := rfl
  rw [e1]
  rw [rebuild_phase_eq { propagate p with por_ret_dirty := b } hpl hrl]
  rw [rebuild_phase_eq (propagate p) hpl hrl]

/-- C2, amended: the save/load round trip commutes with any number of ticks
for every standalone partition whose por and ret linked flags agree with
the rebuild from W, whose pending a_in is the zero vector, whose capability
flags match its activator arrays, and whose g_factor and a[0] agree with
the activator map whenever activators are present: after loading, every
array I5 compares (a, W, the g_* arrays and the countdown) is equal to the
one obtained by just continuing the original partition, exactly in the
rational model.  (The flags hypothesis is necessary: the counterexample
shows a reachable partition with stale flags for which the round trip
diverges.) -/
theorem c2_roundtrip_amended (p : Partition) (sig tah : ℚ → ℚ) (t0 : ℤ)
    (N : ℕ)
    (hpl : p.n_node_porlinked =
      rebuild_por_linked p.NoE p.w p.n_function_selector)
    (hrl : p.n_node_retlinked =
      rebuild_ret_linked p.NoE p.w p.n_function_selector)
    (hin : p.a_in = fun _ => 0)
    (hda : p.has_directional_activators =
      directional_activators_present (save p))
    (hsa : p.has_sampling_activators = sampling_activators_present (save p))
    (hgf : (p.has_directional_activators || p.has_sampling_activators) = true →
      p.a 0 = 1 ∧
      p.g_factor = fun e => p.a (p.allocated_elements_to_activators e)) :
    observe (partition_tick_n sig tah t0 N (load_data (save p))) =
      observe (partition_tick_n sig tah t0 N p) := by
  rw [load_data_save_eq p hpl hrl hin hda hsa hgf]
  cases N with
  | zero => rfl
  | succ n =>
    simp only [partition_tick_n]
    rw [partition_tick_reset sig tah t0 p (fun _ => 0) false hpl hrl]

set_option maxRecDepth 100000 in
unseal Rat.add Rat.mul Rat.sub Rat.inv in
/-- C2, counterexample: ticking the original partition once leaves the
stale por-linked flags at 0 and the Pipe por gate outputs 1; the loaded
copy rebuilds the flags from W to 1 and its por gate outputs 0, so the
activation arrays differ by 1 after N = 1 ticks, far beyond the 1e-6
tolerance the claim allows. -/
theorem c2_roundtrip_counterexample :
    (partition_tick id id 0 c2orig).a 4 = 1 ∧
    (partition_tick id id 0 (load_data (save c2orig))).a 4 = 0 ∧
    ¬ |(partition_tick id id 0 c2orig).a 4 -
        (partition_tick id id 0 (load_data (save c2orig))).a 4| ≤
        1 / 1000000 := by
  decide

/-- C2 witness: the amended round trip statement applied at a concrete
consistent partition and N = 2 ticks. -/
theorem c2_roundtrip_amended_witness :
    observe (partition_tick_n id id 0 2 (load_data (save c2w))) =
      observe (partition_tick_n id id 0 2 c2w) :=
  c2_roundtrip_amended c2w id id 0 2 rfl rfl rfl (by decide) (by decide)
    (by intro h; exact absurd h (by decide))

end Micropsi
